import Mathlib

/-!
Shallow embedding of the highlight session-replay player (frontend
PlayerPage) and of the backend entrypoint (backend/main.go), with proofs
about the behaviour the specification describes.
-/

/-- rrweb event types (`EventType`). -/
inductive EventType
  | domContentLoaded
  | load
  | fullSnapshot
  | incrementalSnapshot
  | meta
  | custom
  deriving DecidableEq, Repr

/-- rrweb incremental-snapshot sources (`IncrementalSource`). -/
inductive IncrementalSource
  | mutation
  | mouseMove
  | mouseInteraction
  | scroll
  | viewportResize
  | input
  | touchMove
  | mediaInteraction
  deriving DecidableEq, Repr

/-- rrweb mouse interaction kinds (`MouseInteractions`). -/
inductive MouseInteractions
  | mouseUp
  | mouseDown
  | click
  | contextMenu
  | dblClick
  | focus
  | blur
  | touchStartKind
  | touchEnd
  deriving DecidableEq, Repr

/-- The `data` of an event as read by `usefulEvent` and `EventStream` after the
casts to `incrementalData` / `mouseInteractionData`: a `source`, the
mouse-interaction kind stored in the data's `type` field, and the target node
`id`. The player only reads these fields after checking the event's type, so
they are carried uniformly here. -/
structure IncData where
  source : IncrementalSource
  type : MouseInteractions
  id : Nat
  deriving DecidableEq, Repr

/-- rrweb `eventWithTime`: an event type, its data, and a timestamp. -/
structure EventWithTime where
  type : EventType
  data : IncData
  timestamp : Int
  deriving DecidableEq, Repr

/-- `usefulEvent` (PlayerPage): discard anything that is not an incremental
snapshot; on the data's source keep only MouseInteraction, and on its kind keep
only Click and Focus; every other path falls through to `false`. -/
def usefulEvent (e : EventWithTime) : Bool :=
  if e.type ≠ EventType.incrementalSnapshot then false
  else
    match e.data.source with
    | IncrementalSource.mouseInteraction =>
      match e.data.type with
      | MouseInteractions.click => true
      | MouseInteractions.focus => true
      | _ => false
    | _ => false

/-- The speed control's click handler (PlayerPage):
`const newSpeed = speed < 4 ? speed * 2 : 1`. -/
def speedStep (speed : Nat) : Nat :=
  if speed < 4 then speed * 2 else 1

/-- The player's initial playback speed: `useState(2)`. -/
def initialSpeed : Nat := 2

/-- An HTTP response as produced by the health route handler. -/
inductive HealthResponse
  | httpError (code : Nat) (msg : String)
  | ok (body : String)
  deriving DecidableEq, Repr

/-- The handler returned by `healthRouter` (backend/main.go). Each `Submit`
call's outcome is passed in as `none` (success) or `some err`: a failed submit
to the non-batched queue answers 500 naming its topic and returns; then a
failed submit to the batched queue answers 500 naming the batched topic and
returns; otherwise the handler writes the healthy body. -/
def healthHandler (runtimeFlag topic batchedTopic : String)
    (submitErr batchedSubmitErr : Option String) : HealthResponse :=
  match submitErr with
  | some _ => HealthResponse.httpError 500 ("failed to write message to kafka " ++ topic)
  | none =>
    match batchedSubmitErr with
    | some _ =>
      HealthResponse.httpError 500 ("failed to write message to kafka " ++ batchedTopic)
    | none => HealthResponse.ok (runtimeFlag ++ " is healthy")

/-- Claim C1: `usefulEvent` is true exactly for incremental-snapshot events
whose source is MouseInteraction and whose interaction kind is Click or Focus;
every other envelope is classified false. -/
theorem usefulEvent_iff (e : EventWithTime) :
    usefulEvent e = true ↔
      e.type = EventType.incrementalSnapshot ∧
      e.data.source = IncrementalSource.mouseInteraction ∧
      (e.data.type = MouseInteractions.click ∨ e.data.type = MouseInteractions.focus) := by
  obtain ⟨t, ⟨s, k, i⟩, ts⟩ := e
  cases t <;> cases s <;> cases k <;> simp [usefulEvent]

/-- Claim C8: from the initial speed, any number of clicks of the speed
control keeps the playback speed in {1, 2, 4}, hence strictly positive. -/
theorem speed_invariant (n : Nat) :
    (speedStep^[n] initialSpeed = 1 ∨ speedStep^[n] initialSpeed = 2 ∨
      speedStep^[n] initialSpeed = 4) ∧
    0 < speedStep^[n] initialSpeed := by
  induction n with
  | zero => simp [initialSpeed]
  | succ k ih =>
    rw [Function.iterate_succ_apply']
    rcases ih.1 with h | h | h <;> rw [h] <;> exact ⟨by decide, by decide⟩

/-- Claim C5: the health handler reports healthy exactly when both submits
succeed, and whenever either submit fails it answers an HTTP 500 error. -/
theorem healthHandler_ok_iff (rt t bt : String) (r1 r2 : Option String) :
    (healthHandler rt t bt r1 r2 = HealthResponse.ok (rt ++ " is healthy") ↔
      r1 = none ∧ r2 = none) ∧
    (r1 ≠ none ∨ r2 ≠ none →
      ∃ msg, healthHandler rt t bt r1 r2 = HealthResponse.httpError 500 msg) := by
  cases r1 <;> cases r2 <;> simp [healthHandler]

/-- Claim C5 witness: with both submits succeeding the handler is healthy, and
with the first submit failing it answers 500. -/
theorem healthHandler_ok_iff_witness :
    healthHandler "public-graph" "t" "b" none none =
      HealthResponse.ok ("public-graph" ++ " is healthy") ∧
    ∃ msg, healthHandler "public-graph" "t" "b" (some "down") none =
      HealthResponse.httpError 500 msg :=
  ⟨(healthHandler_ok_iff "public-graph" "t" "b" none none).1.mpr ⟨rfl, rfl⟩,
   (healthHandler_ok_iff "public-graph" "t" "b" (some "down") none).2 (Or.inl (by simp))⟩

/-- The playback ticker's interval argument in milliseconds:
`window.setInterval(..., 50)` (PlayerPage). -/
def tickInterval : Nat := 50

/-- One firing of the playback ticker callback (PlayerPage): when
`time < totalTime` the time state becomes `time + 50`; otherwise the callback
calls `setPaused(true)` (second component) and keeps `time` unchanged. The
callback closes over `totalTime` only — the speed state does not occur in it. -/
def tickStep (totalTime time : Nat) : Nat × Bool :=
  if time < totalTime then (time + 50, false) else (time, true)

/-- The time state after one ticker firing. -/
def tickTime (totalTime time : Nat) : Nat :=
  (tickStep totalTime time).fst

/-- Repeatedly firing the ticker eventually brings the time to `totalTime` or
beyond. -/
theorem tick_reaches_end : ∀ (k totalTime time : Nat), totalTime - time ≤ k →
    ∃ n, totalTime ≤ (tickTime totalTime)^[n] time := by
  intro k
  induction k with
  | zero =>
    intro totalTime time h
    refine ⟨0, ?_⟩
    have := Nat.sub_eq_zero_iff_le.mp (Nat.le_zero.mp h)
    simpa using this
  | succ k ih =>
    intro totalTime time h
    by_cases hle : totalTime ≤ time
    · exact ⟨0, by simpa using hle⟩
    · push_neg at hle
      have hstep : tickTime totalTime time = time + 50 := by
        simp [tickTime, tickStep, hle]
      have hk : totalTime - (time + 50) ≤ k := by omega
      obtain ⟨n, hn⟩ := ih totalTime (time + 50) hk
      refine ⟨n + 1, ?_⟩
      rw [Function.iterate_succ_apply, hstep]
      exact hn

/-- Claim C2 counterexample: a tick from time 0 (with totalTime 1000) advances
the time by the bare tick interval, 50 — not by tickInterval × playbackSpeed,
which at the initial speed 2 would be 100. -/
theorem tick_ignores_speed :
    tickTime 1000 0 = 0 + tickInterval ∧
    tickInterval * initialSpeed ≠ tickInterval ∧
    tickTime 1000 0 ≠ 0 + tickInterval * initialSpeed := by decide

/-- Claim C2 (amended): each tick advances the time by the fixed tick interval
(50 ms), the same for every playback speed; once the time reaches or exceeds
totalTime a tick leaves it unchanged and pauses the player, and repeated ticks
from any time eventually reach that paused end state. -/
theorem tick_amended (totalTime time : Nat) :
    (time < totalTime → tickStep totalTime time = (time + tickInterval, false)) ∧
    (totalTime ≤ time → tickStep totalTime time = (time, true)) ∧
    (∃ n, totalTime ≤ (tickTime totalTime)^[n] time ∧
      (tickStep totalTime ((tickTime totalTime)^[n] time)).snd = true) := by
  refine ⟨?_, ?_, ?_⟩
  · intro h
    simp [tickStep, tickInterval, h]
  · intro h
    simp [tickStep, Nat.not_lt.mpr h]
  · obtain ⟨n, hn⟩ := tick_reaches_end (totalTime - time) totalTime time (Nat.le_refl _)
    refine ⟨n, hn, ?_⟩
    simp [tickStep, Nat.not_lt.mpr hn]

/-- Claim C2 witness: a tick below the end advances by 50 and keeps playing; a
tick at the end keeps the time and pauses. -/
theorem tick_amended_witness :
    tickStep 100 0 = (0 + tickInterval, false) ∧ tickStep 100 120 = (120, true) :=
  ⟨(tick_amended 100 0).1 (by decide), (tick_amended 100 120).2.1 (by decide)⟩

/-- The Skip Inactivity click handler (PlayerPage): it always calls
`replayer.setConfig({skipInactive: true})` and then toggles the UI boolean with
`setSkipInactive(!skipInactive)`. The result is (the `skipInactive` value sent
to the engine, the new UI state). -/
def skipInactivityClick (skipInactive : Bool) : Bool × Bool :=
  (true, !skipInactive)

/-- Claim C3: clicking the control while the UI state is true (i.e. disabling
skip-inactivity) still sends `skipInactive = true` to the engine while the UI
state becomes false — the value delivered to the engine differs from the
user's setting. -/
theorem skip_toggle_off_sends_true :
    skipInactivityClick true = (true, false) ∧
    (skipInactivityClick true).fst ≠ (skipInactivityClick true).snd := by decide

/-- The 7-second rewind click handler (PlayerPage):
`const newTime = time - 7000 < 0 ? 0 : time - 7000`. -/
def undoNewTime (time : Int) : Int :=
  if time - 7000 < 0 then 0 else time - 7000

/-- The slider's onSelect handler (PlayerPage): `setTime(newTime)` — the
cursor becomes the selected value, unchanged. -/
def sliderSelectTime (newTime : Int) : Int := newTime

/-- Claim C4 counterexample: with totalDuration = 1000, a slider selection of
2000 leaves the cursor at 2000; it is not clamped down to totalDuration. -/
theorem slider_no_upper_clamp :
    sliderSelectTime 2000 = 2000 ∧ ¬ sliderSelectTime 2000 ≤ (1000 : Int) := by decide

/-- Claim C4 (amended): the rewind handler clamps its target below at 0 —
it equals max 0 (time − 7000), is never negative, and never moves the cursor
forward — while the slider handler applies the selected time unchanged, with
no clamping of its own (in particular none against totalDuration). -/
theorem seek_clamping_amended (time newTime : Int) :
    0 ≤ undoNewTime time ∧
    (0 ≤ time → undoNewTime time ≤ time) ∧
    undoNewTime time = max 0 (time - 7000) ∧
    sliderSelectTime newTime = newTime := by
  refine ⟨?_, ?_, ?_, rfl⟩
  · unfold undoNewTime
    split <;> omega
  · intro h
    unfold undoNewTime
    split <;> omega
  · unfold undoNewTime
    split <;> omega

/-- Claim C4 witness: a rewind from time 3 stays nonnegative and does not move
forward, and a slider selection of 5 sets the cursor to 5. -/
theorem seek_clamping_amended_witness :
    0 ≤ undoNewTime 3 ∧ undoNewTime 3 ≤ 3 ∧ sliderSelectTime 5 = 5 :=
  ⟨(seek_clamping_amended 3 5).1, (seek_clamping_amended 3 5).2.1 (by decide),
    (seek_clamping_amended 3 5).2.2.2⟩

/-- Property lookup on the attributes object (`'class' in attrs` / `attrs[key]`):
the value at the first matching key, if any. -/
def attrLookup (k : String) (attrs : List (String × String)) : Option String :=
  (attrs.find? (fun kv => kv.fst == k)).map (fun kv => kv.snd)

/-- The activity-feed description built in `EventStream` (PlayerPage): start
from the tag name; when a class attribute with a truthy (non-empty) value is
present append `.` and the class; when an id attribute with a truthy value is
present append `#` and the id; then for every key other than class and id, in
enumeration order, append `[key=value]`. -/
def describeNode (tagName : String) (attrs : List (String × String)) : String :=
  let s1 :=
    match attrLookup "class" attrs with
    | some v => if v ≠ "" then tagName ++ ("." ++ v) else tagName
    | none => tagName
  let s2 :=
    match attrLookup "id" attrs with
    | some v => if v ≠ "" then s1 ++ ("#" ++ v) else s1
    | none => s1
  (attrs.filter (fun kv => !(kv.fst == "class" || kv.fst == "id"))).foldl
    (fun acc kv => acc ++ ("[" ++ kv.fst ++ "=" ++ kv.snd ++ "]")) s2

/-- The `.class` fragment as the spec words it: `.class` if a non-empty class
attribute is present, empty otherwise. -/
def classFragment (attrs : List (String × String)) : String :=
  match attrLookup "class" attrs with
  | some v => if v ≠ "" then "." ++ v else ""
  | none => ""

/-- The `#id` fragment as the spec words it. -/
def idFragment (attrs : List (String × String)) : String :=
  match attrLookup "id" attrs with
  | some v => if v ≠ "" then "#" ++ v else ""
  | none => ""

/-- The bracketed `[attr=value]` fragments of a list of attributes, in order. -/
def bracketFragments : List (String × String) → String
  | [] => ""
  | kv :: rest => ("[" ++ kv.fst ++ "=" ++ kv.snd ++ "]") ++ bracketFragments rest

/-- The description as the spec words it: the tag, then the `.class` fragment,
then the `#id` fragment, then the bracketed remaining attributes in
enumeration order. -/
def specDescription (tagName : String) (attrs : List (String × String)) : String :=
  tagName ++ classFragment attrs ++ idFragment attrs ++
    bracketFragments (attrs.filter (fun kv => !(kv.fst == "class" || kv.fst == "id")))

theorem foldl_brackets (l : List (String × String)) : ∀ s : String,
    l.foldl (fun acc kv => acc ++ ("[" ++ kv.fst ++ "=" ++ kv.snd ++ "]")) s =
      s ++ bracketFragments l := by
  induction l with
  | nil => intro s; simp [bracketFragments, String.append_empty]
  | cons kv rest ih =>
    intro s
    simp only [List.foldl_cons, bracketFragments]
    rw [ih, String.append_assoc]

/-- Claim C6: the description `EventStream` builds equals the spec's exact
concatenation — tag, then `.class` when a non-empty class is present, then
`#id` when a non-empty id is present, then `[key=value]` for each remaining
attribute in enumeration order. -/
theorem describeNode_eq_spec (tagName : String) (attrs : List (String × String)) :
    describeNode tagName attrs = specDescription tagName attrs := by
  simp only [describeNode, specDescription, classFragment, idFragment]
  rw [foldl_brackets]
  cases hc : attrLookup "class" attrs <;> cases hi : attrLookup "id" attrs <;>
    simp only [String.append_assoc] <;> (try split_ifs) <;>
    simp [String.append_empty, String.empty_append, String.append_assoc]

/-- The browser's set of active intervals, by id. -/
structure TimerState where
  active : List Nat
  deriving DecidableEq, Repr

/-- `window.setInterval`: register the new interval id as active. -/
def setIntervalT (s : TimerState) (i : Nat) : TimerState :=
  ⟨i :: s.active⟩

/-- `clearInterval`: remove an interval id from the active set. -/
def clearIntervalT (s : TimerState) (i : Nat) : TimerState :=
  ⟨s.active.erase i⟩

/-- The resize-polling effect (PlayerPage): when a replayer exists, start a
200ms interval with id `i`. The effect body ends without returning a cleanup
function (second component `none`); the interval is only cleared later, from
inside its own callback, once `resizePlayer` succeeds. -/
def resizeEffect (replayerExists : Bool) (i : Nat) (s : TimerState) :
    TimerState × Option (TimerState → TimerState) :=
  if replayerExists then (setIntervalT s i, none) else (s, none)

/-- The ticker effect (PlayerPage): when `paused`, clear the current ticker and
reset the ticker state to 0; otherwise, when the ticker state is falsy
(`!ticker`, i.e. 0), start a 50ms interval with id `newId` and store it. The
effect body returns no cleanup function (second component `none`). The result
is ((timers, new ticker state), cleanup). -/
def tickerEffect (paused : Bool) (ticker : Nat) (newId : Nat) (s : TimerState) :
    (TimerState × Nat) × Option (TimerState → TimerState) :=
  if paused then ((clearIntervalT s ticker, 0), none)
  else if ticker = 0 then ((setIntervalT s newId, newId), none)
  else ((s, ticker), none)

/-- React unmount: run the effect's returned cleanup, when there is one. -/
def unmountCleanup (s : TimerState) (cleanup : Option (TimerState → TimerState)) :
    TimerState :=
  match cleanup with
  | some f => f s
  | none => s

/-- Claim C7: unmounting while the resize poll has not yet succeeded, or while
playing, leaves the started interval in the active set — both effects return no
cleanup, so a timer the player started keeps ticking after the view closes. -/
theorem unmount_leaves_timers :
    (unmountCleanup (resizeEffect true 1 ⟨[]⟩).fst (resizeEffect true 1 ⟨[]⟩).snd).active
        = [1] ∧
    (unmountCleanup (tickerEffect false 0 2 ⟨[]⟩).fst.fst
        (tickerEffect false 0 2 ⟨[]⟩).snd).active = [2] :=
  ⟨rfl, rfl⟩

/-- A player event with the `identifier` field added by the initialization
effect (`HighlightEvent`). -/
structure HighlightEvent where
  event : EventWithTime
  identifier : String
  deriving DecidableEq, Repr

/-- `sessionData?.events.map((e, i) => ({...e, identifier: i.toString()}))`. -/
def addIdentifiers (l : List EventWithTime) : List HighlightEvent :=
  l.enum.map (fun ie => ⟨ie.snd, toString ie.fst⟩)

/-- A JavaScript value, as far as the initialization guard needs one. -/
inductive JSVal
  | undefinedV
  | numV (n : Nat)
  | boolV (b : Bool)
  deriving DecidableEq, Repr

/-- JavaScript `??`: the left operand unless it is undefined (or null). -/
def jsNullish (a b : JSVal) : JSVal :=
  match a with
  | JSVal.undefinedV => b
  | x => x

/-- JavaScript truthiness of the values above. -/
def jsTruthy : JSVal → Bool
  | JSVal.undefinedV => false
  | JSVal.numV n => n != 0
  | JSVal.boolV b => b

/-- `sessionData?.events?.length`: undefined when the query result is absent,
else the number of fetched events. -/
def eventsLengthJS (sessionEvents : Option (List EventWithTime)) : JSVal :=
  match sessionEvents with
  | none => JSVal.undefinedV
  | some l => JSVal.numV l.length

/-- The guard `sessionData?.events?.length ?? 0 > 1` (PlayerPage), which by
JavaScript operator precedence parses as `(length) ?? (0 > 1)` and is then
tested for truthiness. -/
def replayerInitGuard (sessionEvents : Option (List EventWithTime)) : Bool :=
  jsTruthy (jsNullish (eventsLengthJS sessionEvents) (JSVal.boolV (decide ((0 : Nat) > 1))))

/-- The replayer-initialization effect (PlayerPage): when the guard passes,
tag each fetched event with an identifier and construct the Replayer over
them; otherwise no Replayer is constructed. -/
def replayerInit (sessionEvents : Option (List EventWithTime)) :
    Option (List HighlightEvent) :=
  if replayerInitGuard sessionEvents then
    some (addIdentifiers (sessionEvents.getD []))
  else none

/-- Claim C9: the Replayer is constructed exactly when the fetched event list
is present and non-empty — in particular a single event initializes it and an
empty or absent list never does. -/
theorem replayerInit_iff (sessionEvents : Option (List EventWithTime)) :
    ((replayerInit sessionEvents).isSome = true ↔
      ∃ l, sessionEvents = some l ∧ l ≠ []) ∧
    replayerInit none = none := by
  refine ⟨?_, rfl⟩
  cases sessionEvents with
  | none => simp [replayerInit, replayerInitGuard, eventsLengthJS, jsNullish, jsTruthy]
  | some l =>
    by_cases h : l = []
    · subst h
      simp [replayerInit, replayerInitGuard, eventsLengthJS, jsNullish, jsTruthy]
    · simp [replayerInit, replayerInitGuard, eventsLengthJS, jsNullish, jsTruthy, h,
        List.length_eq_zero]

/-- The backend runtimes (`util.Runtime`). -/
inductive Runtime
  | all
  | worker
  | publicGraph
  | privateGraph
  deriving DecidableEq, Repr

/-- `validateOrigin` (backend/main.go): for the private-graph runtime, accept
only the configured frontend URL, the two production app origins, the landing
staging URL, a Render preview origin, or an AWS Amplify preview origin; for the
public-graph and all runtimes accept everything; otherwise fall through to
`return false`. -/
def validateOrigin (frontendURL landingStagingURL : String) (rt : Runtime)
    (origin : String) : Bool :=
  if rt = Runtime.privateGraph then
    let isRenderPreviewEnv :=
      origin.startsWith "https://frontend-pr-" && origin.endsWith ".onrender.com"
    let isAWSEnv :=
      origin.startsWith "https://pr-" && origin.endsWith ".d25bj3loqvp3nx.amplifyapp.com"
    if origin == frontendURL || origin == "https://app.highlight.run" ||
        origin == "https://app.highlight.io" || origin == landingStagingURL ||
        isRenderPreviewEnv || isAWSEnv then
      true
    else false
  else if rt = Runtime.publicGraph ∨ rt = Runtime.all then true
  else false

/-- Claim C10: `validateOrigin` accepts every origin under the public-graph
and all runtimes, rejects everything under the worker runtime, and under the
private-graph runtime accepts exactly the whitelisted origins: the configured
frontend URL, app.highlight.run, app.highlight.io, the landing staging URL, a
Render preview origin, or an AWS Amplify preview origin. -/
theorem validateOrigin_spec (frontendURL landingStagingURL origin : String) :
    validateOrigin frontendURL landingStagingURL Runtime.publicGraph origin = true ∧
    validateOrigin frontendURL landingStagingURL Runtime.all origin = true ∧
    validateOrigin frontendURL landingStagingURL Runtime.worker origin = false ∧
    (validateOrigin frontendURL landingStagingURL Runtime.privateGraph origin = true ↔
      (origin = frontendURL ∨ origin = "https://app.highlight.run" ∨
        origin = "https://app.highlight.io" ∨ origin = landingStagingURL ∨
        (origin.startsWith "https://frontend-pr-" = true ∧
          origin.endsWith ".onrender.com" = true) ∨
        (origin.startsWith "https://pr-" = true ∧
          origin.endsWith ".d25bj3loqvp3nx.amplifyapp.com" = true))) := by
  refine ⟨by simp [validateOrigin], by simp [validateOrigin], by simp [validateOrigin], ?_⟩
  simp [validateOrigin, Bool.or_eq_true, Bool.and_eq_true, beq_iff_eq, or_assoc]
